import Mathlib

/-
Verification of the care-service messaging core against its specification.
Shallow embedding of the Go sources:
  internal/core/domain/baby.go
  internal/core/services/measurement_service.go and measurement_helpers.go
  internal/core/services/baby_service.go
  internal/adapters/repository (RabbitMQ publisher and baby consumer)
Go float64 values are embedded as rationals (every float64 value is a
rational and all comparisons used by the code are order comparisons, on
which the two agree).  Go uint32 counters are embedded as Nat (no scenario
here approaches overflow).  Time is embedded as Nat seconds.
-/

namespace Care

/-- SafetyStatus from internal/core/domain/baby.go. -/
inductive SafetyStatus where
  | green
  | yellow
  | red
deriving DecidableEq, Repr

/-- TemperatureNormalMin constant from baby.go. -/
def TemperatureNormalMin : ℚ := 36.5

/-- TemperatureNormalMax constant from baby.go. -/
def TemperatureNormalMax : ℚ := 37.5

/-- TemperatureYellowMin constant from baby.go. -/
def TemperatureYellowMin : ℚ := 36.0

/-- TemperatureYellowMax constant from baby.go. -/
def TemperatureYellowMax : ℚ := 38.0

/-- CalculateSafetyStatus from baby.go, translated branch by branch. -/
def CalculateSafetyStatus (measurementType : String) (value : ℚ) : SafetyStatus :=
  if measurementType = "temperature" then
    if value ≥ TemperatureNormalMin ∧ value ≤ TemperatureNormalMax then .green
    else if value ≥ TemperatureYellowMin ∧ value < TemperatureNormalMin then .yellow
    else if value > TemperatureNormalMax ∧ value ≤ TemperatureYellowMax then .yellow
    else .red
  else if measurementType = "weight" then
    if value > 0 then .green else .yellow
  else if measurementType = "feeding" then .green
  else if measurementType = "diaper" then .green
  else .green

/-- IsValidMeasurementType from baby.go. -/
def IsValidMeasurementType (measurementType : String) : Bool :=
  measurementType = "feeding" ∨ measurementType = "weight" ∨
    measurementType = "temperature" ∨ measurementType = "diaper"

/-- alertType derivation inside publishWithRetry (RabbitMQ publisher).
Translation of the Go statement sequence: start from the generic value,
then overwrite on the temperature / weight branches. -/
def alertType (measurementType : String) (value : ℚ) : String :=
  if measurementType = "temperature" then
    if value > TemperatureYellowMax then "high_temperature_critical"
    else if value < TemperatureYellowMin then "low_temperature_critical"
    else "critical_measurement"
  else if measurementType = "weight" then "invalid_weight"
  else "critical_measurement"

/-- alertType derivation as worded by the specification: temperature above
the high threshold, temperature below the low threshold, weight, otherwise
generic.  Used only to compare against the source-derived `alertType`. -/
def alertTypeSpec (measurementType : String) (value : ℚ) : String :=
  if measurementType = "temperature" ∧ value > TemperatureYellowMax then
    "high_temperature_critical"
  else if measurementType = "temperature" ∧ value < TemperatureYellowMin then
    "low_temperature_critical"
  else if measurementType = "weight" then "invalid_weight"
  else "critical_measurement"

/-- C1: for every measurement type and value, the alertType computed by the
publisher is high_temperature_critical for temperature strictly above 38,
low_temperature_critical for temperature strictly below 36, invalid_weight
for weight, and critical_measurement in every other case (including
temperature within the closed interval [36, 38]); the derivation is a pure
total function of type and value, matching the specification case split. -/
theorem alertType_spec_equiv :
    (∀ t v, alertType t v = alertTypeSpec t v) ∧
    (∀ v, v > TemperatureYellowMax → alertType "temperature" v = "high_temperature_critical") ∧
    (∀ v, v < TemperatureYellowMin → alertType "temperature" v = "low_temperature_critical") ∧
    (∀ v, TemperatureYellowMin ≤ v → v ≤ TemperatureYellowMax →
      alertType "temperature" v = "critical_measurement") ∧
    (∀ v, alertType "weight" v = "invalid_weight") ∧
    (∀ t v, t ≠ "temperature" → t ≠ "weight" → alertType t v = "critical_measurement") := by
  refine ⟨?_, ?_, ?_, ?_, ?_, ?_⟩
  · intro t v
    unfold alertType alertTypeSpec
    by_cases ht : t = "temperature"
    · simp [ht]
    · by_cases hw : t = "weight" <;> simp [ht, hw]
  · intro v h
    simp [alertType, h]
  · intro v h
    have h1 : ¬ v > TemperatureYellowMax := by
      unfold TemperatureYellowMax
      unfold TemperatureYellowMin at h
      push_neg
      linarith
    simp [alertType, h1, h]
  · intro v h1 h2
    have hgt : ¬ v > TemperatureYellowMax := not_lt.mpr h2
    have hlt : ¬ v < TemperatureYellowMin := not_lt.mpr h1
    simp [alertType, hgt, hlt]
  · intro v
    simp [alertType]
  · intro t v ht hw
    simp [alertType, ht, hw]

/-- C1 witness: evaluation of the four branches at concrete values. -/
theorem alertType_spec_equiv_witness :
    alertType "temperature" 39 = "high_temperature_critical" ∧
    alertType "temperature" 35 = "low_temperature_critical" ∧
    alertType "temperature" 37 = "critical_measurement" ∧
    alertType "weight" 0 = "invalid_weight" ∧
    alertType "feeding" 5 = "critical_measurement" :=
  ⟨alertType_spec_equiv.2.1 39 (by norm_num [TemperatureYellowMax]),
   alertType_spec_equiv.2.2.1 35 (by norm_num [TemperatureYellowMin]),
   alertType_spec_equiv.2.2.2.1 37 (by norm_num [TemperatureYellowMin])
     (by norm_num [TemperatureYellowMax]),
   alertType_spec_equiv.2.2.2.2.1 0,
   alertType_spec_equiv.2.2.2.2.2 "feeding" 5 (by decide) (by decide)⟩

/-- UUID bytes, as produced by the google/uuid library used by the consumer. -/
abbrev UUIDBytes := List Nat

/-- uuid.Nil from google/uuid: the all-zero UUID. -/
def uuidNil : UUIDBytes := List.replicate 16 0

/-- hex digit value, as the xvalues table of google/uuid. -/
def hexVal (c : Char) : Option Nat :=
  if c ≥ Char.ofNat 48 ∧ c ≤ Char.ofNat 57 then some (c.toNat - 48)
  else if c ≥ Char.ofNat 97 ∧ c ≤ Char.ofNat 102 then some (c.toNat - 97 + 10)
  else if c ≥ Char.ofNat 65 ∧ c ≤ Char.ofNat 70 then some (c.toNat - 65 + 10)
  else none

/-- xtob from google/uuid: two hex characters to one byte. -/
def xtob (c1 c2 : Char) : Option Nat := do
  let h ← hexVal c1
  let l ← hexVal c2
  pure (h * 16 + l)

/-- Reads the byte whose two hex characters start at index x. -/
def uuidByteAt (cs : List Char) (x : Nat) : Option Nat := do
  let c1 ← cs.get? x
  let c2 ← cs.get? (x + 1)
  xtob c1 c2

/-- Character positions of the 16 byte pairs in the canonical 36-char form,
as the index table in google/uuid Parse. -/
def uuidXPositions : List Nat := [0, 2, 4, 6, 9, 11, 14, 16, 19, 21, 24, 26, 28, 30, 32, 34]

/-- uuid.Parse from google/uuid, translated by case on the string length:
36 canonical, 45 with a case-insensitive urn:uuid: marker, 38 with a
surrounding brace pair (the library only drops the first character), and
32 plain hex; every other length fails. -/
def uuidParse (s : String) : Option UUIDBytes :=
  let cs := s.data
  if cs.length = 32 then
    (List.range 16).mapM (fun i => uuidByteAt cs (2 * i))
  else do
    let cs ←
      if cs.length = 36 then some cs
      else if cs.length = 45 then
        if (cs.take 9).map Char.toLower = "urn:uuid:".data then some (cs.drop 9) else none
      else if cs.length = 38 then some (cs.drop 1)
      else none
    if cs.get? 8 = some (Char.ofNat 45) ∧ cs.get? 13 = some (Char.ofNat 45) ∧
        cs.get? 18 = some (Char.ofNat 45) ∧ cs.get? 23 = some (Char.ofNat 45) then
      uuidXPositions.mapM (fun x => uuidByteAt cs x)
    else none

/-- BabyCreationRequest from baby_consumer.go: the three JSON fields. -/
structure BabyCreationRequest where
  userID : String
  lastName : String
  roomNumber : String
deriving DecidableEq, Repr

/-- Baby entity from internal/core/domain/baby.go. -/
structure Baby where
  id : UUIDBytes
  lastName : String
  roomNumber : String
  parentUserID : UUIDBytes
  createdAt : Nat
deriving DecidableEq, Repr

/-- Acknowledgement decision issued for one consumed delivery. -/
inductive AckDecision where
  | ack
  | nackRequeue
  | nackNoRequeue
deriving DecidableEq, Repr

/-- One invocation of the injected creation service, with the arguments the
consumer passes to BabyService.CreateBaby. -/
structure CreateBabyCall where
  lastName : String
  roomNumber : String
  parentUserID : UUIDBytes
  createdByUserID : UUIDBytes
  isAdmin : Bool
deriving DecidableEq, Repr

/-- Observable effects of processMessage on one delivery: the ack decisions
issued, the creation-service invocations, and whether a failed transport
acknowledgement was logged. -/
structure ProcessTrace where
  decisions : List AckDecision
  calls : List CreateBabyCall
  ackFailureLogged : Bool
deriving DecidableEq, Repr

/-- processMessage from baby_consumer.go.  body is the result of
json.Unmarshal on the delivery body (none on a deserialization error);
createBabyResult is the outcome the injected creation service would return
for the single possible invocation; ackFails says whether the transport
acknowledgement would fail.  Translated branch by branch from the source:
unmarshal error, empty user_id, empty last_name, empty room_number and an
unparseable UUID each nack without requeue before the service is called; a
service error nacks with requeue; success acks, and an ack failure is only
logged. -/
def processMessage (body : Option BabyCreationRequest)
    (createBabyResult : Except String Baby) (ackFails : Bool) : ProcessTrace :=
  match body with
  | none => ⟨[.nackNoRequeue], [], false⟩
  | some req =>
    if req.userID = "" then ⟨[.nackNoRequeue], [], false⟩
    else if req.lastName = "" then ⟨[.nackNoRequeue], [], false⟩
    else if req.roomNumber = "" then ⟨[.nackNoRequeue], [], false⟩
    else
      match uuidParse req.userID with
      | none => ⟨[.nackNoRequeue], [], false⟩
      | some parentUserID =>
        match createBabyResult with
        | .error _ => ⟨[.nackRequeue], [⟨req.lastName, req.roomNumber, parentUserID, uuidNil, true⟩], false⟩
        | .ok _ => ⟨[.ack], [⟨req.lastName, req.roomNumber, parentUserID, uuidNil, true⟩], ackFails⟩

/-- C2: every consumed delivery ends in exactly one acknowledgement
decision; an unmarshal failure, an empty field or an unparseable user_id is
nacked without requeue and the creation service is never invoked; a valid
payload whose service call errors is nacked with requeue; a successful
service call is acked. -/
theorem processMessage_state_machine (body : Option BabyCreationRequest)
    (svc : Except String Baby) (ackFails : Bool) :
    (processMessage body svc ackFails).decisions.length = 1 ∧
    ((body = none ∨ ∃ req, body = some req ∧
        (req.userID = "" ∨ req.lastName = "" ∨ req.roomNumber = "" ∨
          uuidParse req.userID = none)) →
      processMessage body svc ackFails = ⟨[.nackNoRequeue], [], false⟩) ∧
    (∀ req, body = some req → req.userID ≠ "" → req.lastName ≠ "" →
      req.roomNumber ≠ "" → uuidParse req.userID ≠ none →
      ((∀ e, svc = .error e →
          (processMessage body svc ackFails).decisions = [.nackRequeue]) ∧
       (∀ b, svc = .ok b →
          (processMessage body svc ackFails).decisions = [.ack]))) := by
  refine ⟨?_, ?_, ?_⟩
  · cases body with
    | none => rfl
    | some req =>
      unfold processMessage
      by_cases h1 : req.userID = "" <;> by_cases h2 : req.lastName = "" <;>
        by_cases h3 : req.roomNumber = "" <;> simp [h1, h2, h3] <;>
        cases uuidParse req.userID <;> [skip; cases svc] <;> rfl
  · rintro (rfl | ⟨req, rfl, hbad⟩)
    · rfl
    · unfold processMessage
      rcases hbad with h | h | h | h
      · simp [h]
      · by_cases h1 : req.userID = "" <;> simp [h1, h]
      · by_cases h1 : req.userID = "" <;> by_cases h2 : req.lastName = "" <;>
          simp [h1, h2, h]
      · by_cases h1 : req.userID = "" <;> by_cases h2 : req.lastName = "" <;>
          by_cases h3 : req.roomNumber = "" <;> simp [h1, h2, h3, h]
  · rintro req rfl h1 h2 h3 h4
    unfold processMessage
    cases hu : uuidParse req.userID with
    | none => exact absurd hu h4
    | some pid =>
      refine ⟨?_, ?_⟩
      · rintro e rfl
        simp [h1, h2, h3, hu]
      · rintro b rfl
        simp [h1, h2, h3, hu]

/-- C2 witness: a delivery with an empty last_name is nacked without
requeue, and a valid delivery whose service call fails is nacked with
requeue. -/
theorem processMessage_state_machine_witness :
    processMessage (some ⟨"123e4567-e89b-12d3-a456-426614174000", "", "101"⟩)
        (Except.error "db down") false = ⟨[.nackNoRequeue], [], false⟩ ∧
    (processMessage (some ⟨"123e4567-e89b-12d3-a456-426614174000", "Smith", "101"⟩)
        (Except.error "db down") false).decisions = [.nackRequeue] :=
  ⟨(processMessage_state_machine _ _ _).2.1
      (Or.inr ⟨_, rfl, Or.inr (Or.inl rfl)⟩),
   (((processMessage_state_machine _ _ _).2.2 _ rfl (by decide) (by decide)
      (by decide) (by decide)).1 _ rfl)⟩

/-- C4: a valid creation request invokes the creation service exactly once,
with the last name and room number from the message, the parsed parent
UUID, uuid.Nil as the acting user and the admin capability flag true; on
success the message is acked exactly once, and a transport acknowledgement
failure changes neither the decisions nor the service calls (it is only
logged). -/
theorem consumer_valid_message_creates_once (req : BabyCreationRequest)
    (pid : UUIDBytes) (b : Baby) (ackFails : Bool)
    (h1 : req.userID ≠ "") (h2 : req.lastName ≠ "") (h3 : req.roomNumber ≠ "")
    (h4 : uuidParse req.userID = some pid) :
    processMessage (some req) (.ok b) ackFails =
      ⟨[.ack], [⟨req.lastName, req.roomNumber, pid, uuidNil, true⟩], ackFails⟩ ∧
    (processMessage (some req) (.ok b) true).decisions =
      (processMessage (some req) (.ok b) false).decisions ∧
    (processMessage (some req) (.ok b) true).calls =
      (processMessage (some req) (.ok b) false).calls := by
  unfold processMessage
  simp [h1, h2, h3, h4]

/-- C4 witness: the end-to-end scenario of the specification on a concrete
valid UUID. -/
theorem consumer_valid_message_creates_once_witness :
    processMessage (some ⟨"123e4567-e89b-12d3-a456-426614174000", "Smith", "101"⟩)
        (.ok ⟨uuidNil, "Smith", "101", uuidNil, 0⟩) false =
      ⟨[.ack], [⟨"Smith", "101",
        [18, 62, 69, 103, 232, 155, 18, 211, 164, 86, 66, 102, 20, 23, 64, 0],
        uuidNil, true⟩], false⟩ :=
  (consumer_valid_message_creates_once _ _ _ _ (by decide) (by decide)
    (by decide) (by decide)).1

/-- Circuit breaker state constants of the sony/gobreaker library used by
the publisher (and the SQL repository). -/
inductive CBStateKind where
  | closed
  | opened
  | halfOpen
deriving DecidableEq, Repr

/-- Counts from sony/gobreaker. -/
structure Counts where
  requests : Nat
  totalSuccesses : Nat
  totalFailures : Nat
  consecutiveSuccesses : Nat
  consecutiveFailures : Nat
deriving DecidableEq, Repr

/-- onRequest from gobreaker Counts. -/
def Counts.onRequest (c : Counts) : Counts := { c with requests := c.requests + 1 }

/-- onSuccess from gobreaker Counts. -/
def Counts.onSuccess (c : Counts) : Counts :=
  { c with totalSuccesses := c.totalSuccesses + 1,
           consecutiveSuccesses := c.consecutiveSuccesses + 1,
           consecutiveFailures := 0 }

/-- onFailure from gobreaker Counts. -/
def Counts.onFailure (c : Counts) : Counts :=
  { c with totalFailures := c.totalFailures + 1,
           consecutiveFailures := c.consecutiveFailures + 1,
           consecutiveSuccesses := 0 }

/-- clear from gobreaker Counts. -/
def Counts.clear : Counts := ⟨0, 0, 0, 0, 0⟩

/-- CircuitBreaker from sony/gobreaker: the settings fields and the mutable
state fields.  Time is Nat seconds; expiry none embeds the Go zero time. -/
structure CircuitBreaker where
  maxRequests : Nat
  interval : Nat
  timeout : Nat
  readyToTrip : Counts → Bool
  state : CBStateKind
  generation : Nat
  counts : Counts
  expiry : Option Nat

/-- Go time.Before on the expiry field: the zero time is before every
positive instant. -/
def expiryBefore (e : Option Nat) (now : Nat) : Bool :=
  match e with
  | none => 0 < now
  | some t => t < now

/-- toNewGeneration from gobreaker: bump the generation, clear the counts,
and set the expiry from the current state. -/
def CircuitBreaker.toNewGeneration (cb : CircuitBreaker) (now : Nat) : CircuitBreaker :=
  let cb := { cb with generation := cb.generation + 1, counts := Counts.clear }
  match cb.state with
  | .closed => if cb.interval = 0 then { cb with expiry := none }
               else { cb with expiry := some (now + cb.interval) }
  | .opened => { cb with expiry := some (now + cb.timeout) }
  | .halfOpen => { cb with expiry := none }

/-- setState from gobreaker: no-op on the same state, otherwise switch and
start a new generation. -/
def CircuitBreaker.setState (cb : CircuitBreaker) (s : CBStateKind) (now : Nat) : CircuitBreaker :=
  if cb.state = s then cb
  else CircuitBreaker.toNewGeneration { cb with state := s } now

/-- currentState from gobreaker: roll the generation over when the closed
interval has elapsed, and move opened to halfOpen when the cooldown has
elapsed. -/
def CircuitBreaker.currentState (cb : CircuitBreaker) (now : Nat) : CircuitBreaker :=
  match cb.state with
  | .closed => if cb.expiry ≠ none ∧ expiryBefore cb.expiry now
               then cb.toNewGeneration now else cb
  | .opened => if expiryBefore cb.expiry now
               then cb.setState .halfOpen now else cb
  | .halfOpen => cb

/-- Errors the breaker itself can return from beforeRequest. -/
inductive BreakerErr where
  | openError
  | tooManyRequests
deriving DecidableEq, Repr

/-- beforeRequest from gobreaker: short-circuit while opened, bound trial
traffic while halfOpen, otherwise count the request. -/
def CircuitBreaker.beforeRequest (cb : CircuitBreaker) (now : Nat) :
    CircuitBreaker × Nat × Option BreakerErr :=
  let cb := cb.currentState now
  if cb.state = .opened then (cb, cb.generation, some .openError)
  else if cb.state = .halfOpen ∧ cb.counts.requests ≥ cb.maxRequests then
    (cb, cb.generation, some .tooManyRequests)
  else ({ cb with counts := cb.counts.onRequest }, cb.generation, none)

/-- onSuccess transition from gobreaker. -/
def CircuitBreaker.onSuccessCB (cb : CircuitBreaker) (now : Nat) : CircuitBreaker :=
  match cb.state with
  | .closed => { cb with counts := cb.counts.onSuccess }
  | .halfOpen =>
    let cb := { cb with counts := cb.counts.onSuccess }
    if cb.counts.consecutiveSuccesses ≥ cb.maxRequests then cb.setState .closed now else cb
  | .opened => cb

/-- onFailure transition from gobreaker. -/
def CircuitBreaker.onFailureCB (cb : CircuitBreaker) (now : Nat) : CircuitBreaker :=
  match cb.state with
  | .closed =>
    let cb := { cb with counts := cb.counts.onFailure }
    if cb.readyToTrip cb.counts then cb.setState .opened now else cb
  | .halfOpen => cb.setState .opened now
  | .opened => cb

/-- afterRequest from gobreaker: discard the outcome when the generation
changed under the call, otherwise apply the success or failure transition. -/
def CircuitBreaker.afterRequest (cb : CircuitBreaker) (before : Nat) (now : Nat)
    (success : Bool) : CircuitBreaker :=
  let cb := cb.currentState now
  if cb.generation ≠ before then cb
  else if success then cb.onSuccessCB now else cb.onFailureCB now

/-- Outcome of one guarded call: either rejected by the breaker without
invoking the underlying operation, or executed with the operation outcome
passed through unchanged. -/
inductive CBOutcome where
  | rejected (e : BreakerErr)
  | executed (opFailed : Bool)
deriving DecidableEq, Repr

/-- Execute from gobreaker: beforeRequest at time t1, run the guarded
operation only when admitted, afterRequest at time t2.  The operation
outcome is returned unchanged to the caller. -/
def cbExecute (cb : CircuitBreaker) (t1 t2 : Nat) (opFails : Bool) :
    CircuitBreaker × CBOutcome :=
  match cb.beforeRequest t1 with
  | (cb1, _, some e) => (cb1, .rejected e)
  | (cb1, gen, none) =>
    (cb1.afterRequest gen t2 (!opFails), .executed opFails)

/-- ReadyToTrip closure from NewRabbitMQPublisher: more than 5 consecutive
failures. -/
def rabbitReadyToTrip : Counts → Bool := fun c => decide (5 < c.consecutiveFailures)

/-- NewCircuitBreaker with the settings of NewRabbitMQPublisher:
MaxRequests 5, Interval 60s, Timeout 30s, constructed at the given time
(gobreaker ends construction with toNewGeneration). -/
def newRabbitBreaker (now : Nat) : CircuitBreaker :=
  CircuitBreaker.toNewGeneration
    { maxRequests := 5, interval := 60, timeout := 30,
      readyToTrip := rabbitReadyToTrip,
      state := .closed, generation := 0, counts := Counts.clear, expiry := none } now

/-- State of the publisher breaker after n consecutive failed guarded
calls, all issued at time 0 against a breaker constructed at time 0. -/
def failuresAt0 : Nat → CircuitBreaker
  | 0 => newRabbitBreaker 0
  | n + 1 => (cbExecute (failuresAt0 n) 0 0 true).1

/-- Concrete value of the breaker after 6 consecutive failures: tripped to
the opened state with the cooldown expiring at time 30. -/
theorem failuresAt0_six :
    failuresAt0 6 =
      { maxRequests := 5, interval := 60, timeout := 30,
        readyToTrip := rabbitReadyToTrip,
        state := .opened, generation := 2, counts := Counts.clear,
        expiry := some 30 } := by
  rfl

/-- C3: with the publisher settings (trip when consecutive failures exceed
5, cooldown 30s), the 6th consecutive failing call is still attempted, the
breaker is opened afterwards, every call up to 30s after the trip is
rejected with the open-circuit error without invoking the operation, and
the first call after the cooldown has elapsed is attempted against the
underlying operation. -/
theorem circuit_breaker_trip_and_cooldown :
    (cbExecute (failuresAt0 5) 0 0 true).2 = .executed true ∧
    (failuresAt0 6).state = .opened ∧
    (∀ t b, t ≤ 30 → (cbExecute (failuresAt0 6) t t b).2 = .rejected .openError) ∧
    (∀ t b, 30 < t → (cbExecute (failuresAt0 6) t t b).2 = .executed b) := by
  refine ⟨rfl, rfl, ?_, ?_⟩
  · intro t b ht
    have hnb : expiryBefore (some 30) t = false := by
      simp [expiryBefore]
      omega
    rw [failuresAt0_six]
    simp [cbExecute, CircuitBreaker.beforeRequest, CircuitBreaker.currentState, hnb]
  · intro t b ht
    have hb : expiryBefore (some 30) t = true := by
      simp [expiryBefore]
      omega
    rw [failuresAt0_six]
    simp [cbExecute, CircuitBreaker.beforeRequest, CircuitBreaker.currentState, hb,
      CircuitBreaker.setState, CircuitBreaker.toNewGeneration, Counts.clear,
      CircuitBreaker.afterRequest]

/-- C3 witness: the 7th call at 10s after the trip is rejected without
executing, and a call at 31s (cooldown elapsed) is attempted. -/
theorem circuit_breaker_trip_and_cooldown_witness :
    (cbExecute (failuresAt0 6) 10 10 true).2 = .rejected .openError ∧
    (cbExecute (failuresAt0 6) 31 31 false).2 = .executed false :=
  ⟨circuit_breaker_trip_and_cooldown.2.2.1 10 true (by decide),
   circuit_breaker_trip_and_cooldown.2.2.2 31 false (by decide)⟩

/-- Environment of one publish attempt inside publishWithRetry: the owned
connection is nil or closed, or the publish call is performed and fails
with an error, or it is performed and succeeds. -/
inductive Attempt where
  | dead
  | fail (e : String)
  | ok
deriving DecidableEq, Repr

/-- Observable effects of publishWithRetry: the returned result (an error
value wraps the last underlying cause, none when no publish was ever
performed), the number of publish calls performed, the number of reconnect
requests issued and the number of retry-delay sleeps. -/
structure PubTrace where
  result : Except (Option String) Unit
  io : Nat
  reconnects : Nat
  sleeps : Nat
deriving Repr

/-- Retry loop of publishWithRetry, by remaining attempts r (the Go loop
index is i, with r = maxRetries - i).  A dead connection triggers a
reconnect request and a sleep without any publish; a failed publish
records the error and, when attempts remain, triggers a reconnect request
and a sleep; a successful publish returns immediately; exhausting the loop
returns an error wrapping the last recorded cause. -/
def pubGo (env : Nat → Attempt) : Nat → Nat → Option String → Nat → Nat → Nat → PubTrace
  | 0, _, lastErr, io, rc, sl => ⟨.error lastErr, io, rc, sl⟩
  | r + 1, i, lastErr, io, rc, sl =>
    match env i with
    | .dead => pubGo env r (i + 1) lastErr io (rc + 1) (sl + 1)
    | .ok => ⟨.ok (), io + 1, rc, sl⟩
    | .fail e =>
      if 0 < r then pubGo env r (i + 1) (some e) (io + 1) (rc + 1) (sl + 1)
      else pubGo env r (i + 1) (some e) (io + 1) rc sl

/-- publishWithRetry from the RabbitMQ publisher: maxRetries = 3 attempts
starting with no recorded cause and no effects. -/
def publishWithRetry (env : Nat → Attempt) : PubTrace := pubGo env 3 0 none 0 0 0

/-- The last publish error among the three attempt slots. -/
def lastFailure (env : Nat → Attempt) : Option String :=
  match env 2 with
  | .fail e => some e
  | _ =>
    match env 1 with
    | .fail e => some e
    | _ =>
      match env 0 with
      | .fail e => some e
      | _ => none

/-- Helper bound: the loop performs at most one publish per remaining
attempt. -/
theorem pubGo_io_le (env : Nat → Attempt) :
    ∀ r i le io rc sl, (pubGo env r i le io rc sl).io ≤ io + r := by
  intro r
  induction r with
  | zero => intro i le io rc sl; simp [pubGo]
  | succ n ih =>
    intro i le io rc sl
    unfold pubGo
    cases env i with
    | dead => exact le_trans (ih _ _ _ _ _) (by omega)
    | ok => simp
    | fail e =>
      by_cases h : 0 < n <;> simp [h] <;> exact le_trans (ih _ _ _ _ _) (by omega)

/-- C6: publishWithRetry performs at most 3 publish attempts; an attempt
that finds the connection absent or closed issues exactly one reconnect
request and one retry-delay sleep and performs no publish; when no attempt
succeeds the call returns an error wrapping the last underlying cause
rather than succeeding; and when every attempt finds the connection dead
the call performs no publish at all, issues a reconnect request and waits
on each of the 3 attempts, and still returns an error. -/
theorem publishWithRetry_bounded_and_wraps (env : Nat → Attempt) :
    (publishWithRetry env).io ≤ 3 ∧
    (∀ r i le io rc sl, env i = .dead →
      pubGo env (r + 1) i le io rc sl = pubGo env r (i + 1) le io (rc + 1) (sl + 1)) ∧
    ((∀ i, i < 3 → env i ≠ .ok) →
      (publishWithRetry env).result = .error (lastFailure env)) ∧
    ((∀ i, i < 3 → env i = .dead) →
      publishWithRetry env = ⟨.error none, 0, 3, 3⟩) := by
  refine ⟨pubGo_io_le env 3 0 none 0 0 0, ?_, ?_, ?_⟩
  · intro r i le io rc sl h
    simp [pubGo, h]
  · intro hno
    have h0 := hno 0 (by omega)
    have h1 := hno 1 (by omega)
    have h2 := hno 2 (by omega)
    unfold publishWithRetry lastFailure
    cases e0 : env 0 with
    | ok => exact absurd e0 h0
    | dead =>
      cases e1 : env 1 with
      | ok => exact absurd e1 h1
      | dead =>
        cases e2 : env 2 with
        | ok => exact absurd e2 h2
        | dead => simp [pubGo, e0, e1, e2]
        | fail e => simp [pubGo, e0, e1, e2]
      | fail e =>
        cases e2 : env 2 with
        | ok => exact absurd e2 h2
        | dead => simp [pubGo, e0, e1, e2]
        | fail f => simp [pubGo, e0, e1, e2]
    | fail e =>
      cases e1 : env 1 with
      | ok => exact absurd e1 h1
      | dead =>
        cases e2 : env 2 with
        | ok => exact absurd e2 h2
        | dead => simp [pubGo, e0, e1, e2]
        | fail f => simp [pubGo, e0, e1, e2]
      | fail f =>
        cases e2 : env 2 with
        | ok => exact absurd e2 h2
        | dead => simp [pubGo, e0, e1, e2]
        | fail g => simp [pubGo, e0, e1, e2]
  · intro hall
    have h0 := hall 0 (by omega)
    have h1 := hall 1 (by omega)
    have h2 := hall 2 (by omega)
    simp [publishWithRetry, pubGo, h0, h1, h2]

/-- C6 witness: three failing publishes wrap the last cause; three dead
connections perform no publish and return an error; a dead first attempt
consumes one reconnect request and one sleep. -/
theorem publishWithRetry_bounded_and_wraps_witness :
    (publishWithRetry (fun _ => Attempt.fail "broker gone")).result =
      .error (some "broker gone") ∧
    publishWithRetry (fun _ => Attempt.dead) = ⟨.error none, 0, 3, 3⟩ ∧
    pubGo (fun _ => Attempt.dead) 3 0 none 0 0 0 =
      pubGo (fun _ => Attempt.dead) 2 1 none 0 1 1 :=
  ⟨(publishWithRetry_bounded_and_wraps _).2.2.1
      (by intro i _ h; simp at h),
   (publishWithRetry_bounded_and_wraps _).2.2.2 (fun _ _ => rfl),
   (publishWithRetry_bounded_and_wraps (fun _ => Attempt.dead)).2.1 2 0 none 0 0 0 rfl⟩

/-- IsValidBreastfeedingPosition from the domain package. -/
def IsValidBreastfeedingPosition (p : String) : Bool :=
  p = "cross_cradle" ∨ p = "cradle" ∨ p = "football" ∨ p = "side_lying" ∨ p = "laid_back"

/-- IsValidBreastfeedingSide from the domain package. -/
def IsValidBreastfeedingSide (s : String) : Bool :=
  s = "left" ∨ s = "right" ∨ s = "both"

/-- IsValidDiaperStatus from the domain package. -/
def IsValidDiaperStatus (s : String) : Bool :=
  s = "dry" ∨ s = "wet" ∨ s = "dirty" ∨ s = "both"

/-- CreateMeasurementRequest from internal/core/ports/service.go.  Nat 0
embeds the Go zero time for the optional timestamp. -/
structure CreateMeasurementRequest where
  type : String
  value : ℚ
  note : String
  timestamp : Nat
  feedingType : String
  volumeML : Option Int
  position : String
  side : String
  leftDuration : Option Int
  rightDuration : Option Int
  duration : Option Int
  valueCelsius : Option ℚ
  diaperStatus : String
deriving DecidableEq, Repr

/-- Measurement from internal/core/domain/baby.go. -/
structure Measurement where
  id : UUIDBytes
  parentID : UUIDBytes
  babyID : UUIDBytes
  type : String
  value : ℚ
  safetyStatus : SafetyStatus
  note : String
  timestamp : Nat
  createdAt : Nat
  feedingType : String
  volumeML : Option Int
  position : Option String
  side : Option String
  leftDuration : Option Int
  rightDuration : Option Int
  duration : Option Int
  valueCelsius : Option ℚ
  diaperStatus : Option String
deriving DecidableEq, Repr

/-- validateMeasurement from measurement_service.go, translated by case on
the request type. -/
def validateMeasurement (req : CreateMeasurementRequest) : Except String Unit :=
  if req.type = "temperature" then
    if req.value < 30 ∨ req.value > 42 then
      .error "temperature must be between 30.0 and 42.0"
    else .ok ()
  else if req.type = "weight" then
    if req.value ≤ 0 then .error "weight must be greater than 0 grams"
    else if req.value > 10000 then .error "weight exceeds reasonable maximum (10000g)"
    else .ok ()
  else if req.type = "feeding" then
    if req.feedingType = "" then .error "feeding type must be specified (bottle or breast)"
    else .ok ()
  else if req.type = "diaper" then
    if req.diaperStatus = "" then .error "diaper status must be specified (dry, wet, dirty, or both)"
    else .ok ()
  else .error "unsupported measurement type"

/-- Optional-position step of setFeedingFields: an empty position is
skipped, a non-empty one must be valid and is stored. -/
def feedingPositionStep (m : Measurement) (req : CreateMeasurementRequest) :
    Except String Measurement :=
  if req.position = "" then .ok m
  else if IsValidBreastfeedingPosition req.position then
    .ok { m with position := some req.position }
  else .error "invalid breastfeeding position"

/-- Duration step of setFeedingFields for the breast branch: both sides
need both positive durations (the total becomes the value); a single side
needs one positive bounded duration. -/
def feedingDurationStep (m : Measurement) (req : CreateMeasurementRequest) :
    Except String Measurement :=
  if req.side = "both" then
    match req.leftDuration with
    | none => .error "breast feeding with both sides requires left_duration > 0"
    | some ld =>
      if ld ≤ 0 then .error "breast feeding with both sides requires left_duration > 0"
      else
        match req.rightDuration with
        | none => .error "breast feeding with both sides requires right_duration > 0"
        | some rd =>
          if rd ≤ 0 then .error "breast feeding with both sides requires right_duration > 0"
          else .ok { m with leftDuration := some ld, rightDuration := some rd,
                            value := ((ld + rd : Int) : ℚ) }
  else
    match req.duration with
    | none => .error "breast feeding with single side requires duration > 0 seconds"
    | some d =>
      if d ≤ 0 then .error "breast feeding with single side requires duration > 0 seconds"
      else if d > 3600 then .error "breast feeding duration exceeds reasonable maximum (3600 seconds)"
      else .ok { m with duration := some d, value := ((d : Int) : ℚ) }

/-- setFeedingFields from measurement_helpers.go. -/
def setFeedingFields (m : Measurement) (req : CreateMeasurementRequest) :
    Except String Measurement :=
  if req.feedingType = "" then .error "feeding type must be specified (bottle or breast)"
  else if req.feedingType ≠ "bottle" ∧ req.feedingType ≠ "breast" then
    .error "feeding type must be bottle or breast"
  else
    if req.feedingType = "bottle" then
      match req.volumeML with
      | none => .error "bottle feeding requires volume_ml > 0"
      | some v =>
        if v ≤ 0 then .error "bottle feeding requires volume_ml > 0"
        else if v > 500 then .error "bottle volume exceeds reasonable maximum (500ml)"
        else .ok { m with feedingType := req.feedingType,
                          volumeML := some v, value := ((v : Int) : ℚ) }
    else
      if req.side = "" then .error "breast feeding requires side (left, right, or both)"
      else if IsValidBreastfeedingSide req.side then
        match feedingPositionStep
            { m with feedingType := req.feedingType, side := some req.side } req with
        | .error e => .error e
        | .ok m2 => feedingDurationStep m2 req
      else .error "invalid side: must be left, right, or both"

/-- setTemperatureFields from measurement_helpers.go: value_celsius wins
over value, is bound checked and becomes both stored fields. -/
def setTemperatureFields (m : Measurement) (req : CreateMeasurementRequest) :
    Except String Measurement :=
  match req.valueCelsius with
  | some t =>
    if t < 30 ∨ t > 42 then .error "temperature must be between 30.0 and 42.0"
    else .ok { m with valueCelsius := some t, value := t }
  | none =>
    if req.value < 30 ∨ req.value > 42 then .error "temperature must be between 30.0 and 42.0"
    else .ok { m with valueCelsius := some req.value, value := req.value }

/-- setDiaperFields from measurement_helpers.go. -/
def setDiaperFields (m : Measurement) (req : CreateMeasurementRequest) :
    Except String Measurement :=
  if req.diaperStatus = "" then
    .error "diaper status must be specified (dry, wet, dirty, or both)"
  else if IsValidDiaperStatus req.diaperStatus then
    .ok { m with diaperStatus := some req.diaperStatus, value := 0 }
  else .error "invalid diaper status: must be dry, wet, dirty, or both"

/-- Type switch of CreateMeasurementWithDetails that dispatches to the
type-specific field setters (weight falls through unchanged). -/
def setTypeFields (m : Measurement) (req : CreateMeasurementRequest) :
    Except String Measurement :=
  if req.type = "feeding" then setFeedingFields m req
  else if req.type = "temperature" then setTemperatureFields m req
  else if req.type = "diaper" then setDiaperFields m req
  else .ok m

/-- Collaborator outcomes consumed by CreateMeasurementWithDetails: the
baby-existence and ownership repository answers, the measurement insert
outcome, the generated measurement id, the current time, and whether the
2s response budget was exceeded. -/
structure MSEnv where
  babyExists : Except String Bool
  ownership : Except String Bool
  repoCreate : Except String Unit
  newID : UUIDBytes
  now : Nat
  elapsedOver2s : Bool

/-- Tail of CreateMeasurementWithDetails after the request fields are set:
persist the measurement, launch the alert goroutine exactly when the saved
measurement has Red status, and apply the 2s response budget check. -/
def persistStep (fieldsResult : Except String Measurement)
    (repoCreate : Except String Unit) (elapsedOver2s : Bool) :
    Except String Measurement × Bool :=
  match fieldsResult with
  | .error e => (.error e, false)
  | .ok m =>
    match repoCreate with
    | .error _ => (.error "failed to create measurement", false)
    | .ok _ =>
      if elapsedOver2s then
        (.error "operation exceeded 2s timeout", decide (m.safetyStatus = SafetyStatus.red))
      else (.ok m, decide (m.safetyStatus = SafetyStatus.red))

/-- Main chain of CreateMeasurementWithDetails from measurement_service.go,
returning the result handed back to the caller and whether PublishAlert
was invoked (the detached alert goroutine is launched exactly when the
saved measurement has Red safety status). -/
def createMeasurementCore (env : MSEnv) (babyID : UUIDBytes)
    (req : CreateMeasurementRequest) (userID : UUIDBytes) (isAdmin : Bool) :
    Except String Measurement × Bool :=
  if IsValidMeasurementType req.type then
    match validateMeasurement req with
    | .error e => (.error e, false)
    | .ok _ =>
      match env.babyExists with
      | .error _ => (.error "failed to check baby existence", false)
      | .ok false => (.error "baby not found", false)
      | .ok true =>
        if isAdmin then (.error "forbidden: only PARENT can create measurements", false)
        else
          match env.ownership with
          | .error _ => (.error "failed to check ownership", false)
          | .ok false => (.error "baby not found", false)
          | .ok true =>
            persistStep
              (setTypeFields
                { id := env.newID, parentID := userID, babyID := babyID,
                  type := req.type, value := req.value,
                  safetyStatus := CalculateSafetyStatus req.type req.value,
                  note := req.note,
                  timestamp := if req.timestamp = 0 then env.now else req.timestamp,
                  createdAt := env.now,
                  feedingType := "", volumeML := none, position := none,
                  side := none, leftDuration := none, rightDuration := none,
                  duration := none, valueCelsius := none, diaperStatus := none }
                req)
              env.repoCreate env.elapsedOver2s
  else (.error "invalid measurement type", false)

/-- Observable outcome of CreateMeasurementWithDetails: the value returned
to the caller, whether the alert publisher was invoked, and whether a
publish failure was logged by the detached goroutine. -/
structure CreateTrace where
  result : Except String Measurement
  alertInvoked : Bool
  publishFailureLogged : Bool

/-- CreateMeasurementWithDetails from measurement_service.go.  The
publishFails flag is the outcome of the detached PublishAlert call; it is
only ever logged, never threaded into the returned value. -/
def CreateMeasurementWithDetails (env : MSEnv) (publishFails : Bool)
    (babyID : UUIDBytes) (req : CreateMeasurementRequest) (userID : UUIDBytes)
    (isAdmin : Bool) : CreateTrace :=
  let core := createMeasurementCore env babyID req userID isAdmin
  { result := core.1, alertInvoked := core.2,
    publishFailureLogged := core.2 && publishFails }

/-- The position step never changes the safety status. -/
theorem feedingPositionStep_safety (m : Measurement) (req : CreateMeasurementRequest)
    (m2 : Measurement) (h : feedingPositionStep m req = .ok m2) :
    m2.safetyStatus = m.safetyStatus := by
  unfold feedingPositionStep at h
  repeat' split at h
  all_goals first
    | exact Except.noConfusion h
    | (injection h with h; subst h; rfl)

/-- The duration step never changes the safety status. -/
theorem feedingDurationStep_safety (m : Measurement) (req : CreateMeasurementRequest)
    (m2 : Measurement) (h : feedingDurationStep m req = .ok m2) :
    m2.safetyStatus = m.safetyStatus := by
  unfold feedingDurationStep at h
  repeat' split at h
  all_goals first
    | exact Except.noConfusion h
    | (injection h with h; subst h; rfl)

/-- setFeedingFields never changes the safety status. -/
theorem setFeedingFields_safety (m : Measurement) (req : CreateMeasurementRequest)
    (m2 : Measurement) (h : setFeedingFields m req = .ok m2) :
    m2.safetyStatus = m.safetyStatus := by
  unfold setFeedingFields at h
  repeat' split at h
  all_goals first
    | exact Except.noConfusion h
    | (injection h with h; subst h; rfl)
    | skip
  case _ heq =>
    have h1 := feedingPositionStep_safety _ _ _ heq
    have h2 := feedingDurationStep_safety _ _ _ h
    exact h2.trans h1

/-- setTemperatureFields never changes the safety status. -/
theorem setTemperatureFields_safety (m : Measurement) (req : CreateMeasurementRequest)
    (m2 : Measurement) (h : setTemperatureFields m req = .ok m2) :
    m2.safetyStatus = m.safetyStatus := by
  unfold setTemperatureFields at h
  repeat' split at h
  all_goals first
    | exact Except.noConfusion h
    | (injection h with h; subst h; rfl)

/-- setDiaperFields never changes the safety status. -/
theorem setDiaperFields_safety (m : Measurement) (req : CreateMeasurementRequest)
    (m2 : Measurement) (h : setDiaperFields m req = .ok m2) :
    m2.safetyStatus = m.safetyStatus := by
  unfold setDiaperFields at h
  repeat' split at h
  all_goals first
    | exact Except.noConfusion h
    | (injection h with h; subst h; rfl)

/-- The type switch never changes the safety status. -/
theorem setTypeFields_safety (m : Measurement) (req : CreateMeasurementRequest)
    (m2 : Measurement) (h : setTypeFields m req = .ok m2) :
    m2.safetyStatus = m.safetyStatus := by
  unfold setTypeFields at h
  repeat' split at h
  · exact setFeedingFields_safety _ _ _ h
  · exact setTemperatureFields_safety _ _ _ h
  · exact setDiaperFields_safety _ _ _ h
  · injection h with h; subst h; rfl

/-- When persistStep reports the alert goroutine launched, the fields step
succeeded and the saved measurement has Red status. -/
theorem persistStep_invoked (fr : Except String Measurement)
    (rc : Except String Unit) (el : Bool)
    (h : (persistStep fr rc el).2 = true) :
    ∃ m, fr = .ok m ∧ m.safetyStatus = .red := by
  unfold persistStep at h
  repeat' split at h
  all_goals simp_all

/-- The alert goroutine is launched only when the computed safety status of
the request is Red. -/
theorem createCore_invoked_red (env : MSEnv) (babyID : UUIDBytes)
    (req : CreateMeasurementRequest) (userID : UUIDBytes) (isAdmin : Bool)
    (h : (createMeasurementCore env babyID req userID isAdmin).2 = true) :
    CalculateSafetyStatus req.type req.value = .red := by
  unfold createMeasurementCore at h
  repeat' split at h
  all_goals
    first
      | (obtain ⟨m, hm, hred⟩ := persistStep_invoked _ _ _ h
         rw [setTypeFields_safety _ _ _ hm] at hred
         exact hred)
      | simp at h

/-- C7: the outcome of the detached PublishAlert call changes neither the
value returned by CreateMeasurementWithDetails nor whether the alert was
published (a publish failure is only logged), and PublishAlert is invoked
only when the computed safety status of the created measurement is Red. -/
theorem publish_failure_does_not_change_result (env : MSEnv) (p1 p2 : Bool)
    (babyID : UUIDBytes) (req : CreateMeasurementRequest) (userID : UUIDBytes)
    (isAdmin : Bool) :
    (CreateMeasurementWithDetails env p1 babyID req userID isAdmin).result =
      (CreateMeasurementWithDetails env p2 babyID req userID isAdmin).result ∧
    (CreateMeasurementWithDetails env p1 babyID req userID isAdmin).alertInvoked =
      (CreateMeasurementWithDetails env p2 babyID req userID isAdmin).alertInvoked ∧
    ((CreateMeasurementWithDetails env p1 babyID req userID isAdmin).alertInvoked = true →
      CalculateSafetyStatus req.type req.value = .red) :=
  ⟨rfl, rfl, fun h => createCore_invoked_red env babyID req userID isAdmin h⟩

/-- C7 witness: a temperature of 39 with healthy collaborators publishes an
alert, and the theorem instance confirms its status is Red. -/
theorem publish_failure_does_not_change_result_witness :
    CalculateSafetyStatus "temperature" 39 = .red :=
  (publish_failure_does_not_change_result
    ⟨.ok true, .ok true, .ok (), uuidNil, 5, false⟩ true false
    uuidNil ⟨"temperature", 39, "", 0, "", none, "", "", none, none, none, none, ""⟩
    uuidNil false).2.2 (by
      norm_num [CreateMeasurementWithDetails, createMeasurementCore, persistStep,
        setTypeFields, setTemperatureFields, validateMeasurement,
        IsValidMeasurementType, CalculateSafetyStatus, TemperatureNormalMin,
        TemperatureNormalMax, TemperatureYellowMin, TemperatureYellowMax]
      rw [if_neg (by decide : ¬ ("temperature" : String) = "feeding")]
      rfl)

/-- C10: a weight measurement never computes the Red safety status
(positive is Green, zero or negative is Yellow), the CreateMeasurement
path therefore never invokes the alert publisher for a weight measurement,
and the invalid_weight alert type is produced only for weight
measurements, so that branch is unreachable on this path. -/
theorem weight_never_red_no_alert :
    (∀ v : ℚ, CalculateSafetyStatus "weight" v ≠ .red) ∧
    (∀ (env : MSEnv) (p : Bool) (babyID : UUIDBytes)
        (req : CreateMeasurementRequest) (userID : UUIDBytes) (isAdmin : Bool),
      req.type = "weight" →
      (CreateMeasurementWithDetails env p babyID req userID isAdmin).alertInvoked = false) ∧
    (∀ t v, alertType t v = "invalid_weight" → t = "weight") := by
  have hw : ∀ v : ℚ, CalculateSafetyStatus "weight" v ≠ .red := by
    intro v
    unfold CalculateSafetyStatus
    by_cases h : v > 0 <;> simp [h]
  refine ⟨hw, ?_, ?_⟩
  · intro env p babyID req userID isAdmin ht
    cases hbool : (CreateMeasurementWithDetails env p babyID req userID isAdmin).alertInvoked with
    | false => rfl
    | true =>
      have hred := createCore_invoked_red env babyID req userID isAdmin hbool
      rw [ht] at hred
      exact absurd hred (hw req.value)
  · intro t v hit
    by_cases hwt : t = "weight"
    · exact hwt
    · exfalso
      unfold alertType at hit
      by_cases ht : t = "temperature"
      · rw [if_pos ht] at hit
        by_cases h1 : v > TemperatureYellowMax
        · rw [if_pos h1] at hit
          exact absurd hit (by decide)
        · rw [if_neg h1] at hit
          by_cases h2 : v < TemperatureYellowMin
          · rw [if_pos h2] at hit
            exact absurd hit (by decide)
          · rw [if_neg h2] at hit
            exact absurd hit (by decide)
      · rw [if_neg ht, if_neg hwt] at hit
        exact absurd hit (by decide)

/-- C10 witness: evaluation at concrete weight inputs. -/
theorem weight_never_red_no_alert_witness :
    CalculateSafetyStatus "weight" 0 ≠ .red ∧
    (CreateMeasurementWithDetails ⟨.ok true, .ok true, .ok (), uuidNil, 5, false⟩ false
      uuidNil ⟨"weight", 3000, "", 0, "", none, "", "", none, none, none, none, ""⟩
      uuidNil false).alertInvoked = false ∧
    "weight" = "weight" :=
  ⟨weight_never_red_no_alert.1 0,
   weight_never_red_no_alert.2.1 _ _ _ _ _ _ rfl,
   weight_never_red_no_alert.2.2 "weight" 1 (by decide)⟩

/-- Run state of the baby consumer guarded by consumingMutex: whether a
consumption loop is active and whether a run context has been stored. -/
structure ConsumerState where
  isConsuming : Bool
  hasCtx : Bool
deriving DecidableEq, Repr

/-- Environment of one StartConsuming call: whether the owned channel and
connection are non-nil and not closed, and whether the QoS and Consume
broker calls succeed. -/
structure StartEnv where
  connAlive : Bool
  qosOk : Bool
  consumeOk : Bool
deriving DecidableEq, Repr

/-- StartConsuming from baby_consumer.go: returns the new run state, the
result returned to the caller, and the number of consumer registrations
performed.  The guard returns nil untouched when a loop is already active;
otherwise the run state is marked consuming with the context stored, each
failing step resets the consuming flag, and success registers exactly one
consumer. -/
def StartConsuming (s : ConsumerState) (env : StartEnv) :
    ConsumerState × Except String Unit × Nat :=
  if s.isConsuming then (s, .ok (), 0)
  else
    if env.connAlive then
      if env.qosOk then
        if env.consumeOk then
          ({ s with isConsuming := true, hasCtx := true }, .ok (), 1)
        else ({ s with isConsuming := false, hasCtx := true },
              .error "failed to register consumer", 0)
      else ({ s with isConsuming := false, hasCtx := true },
            .error "failed to set QoS", 0)
    else ({ s with isConsuming := false, hasCtx := true },
          .error "RabbitMQ connection is closed", 0)

/-- C8: when a consumption loop is already active, StartConsuming is a
no-op that returns success, registers no consumer and leaves the state
unchanged; consequently a successful start followed by a second start call
registers exactly one consumer in total. -/
theorem startConsuming_noop_when_consuming :
    (∀ (s : ConsumerState) (env : StartEnv), s.isConsuming = true →
      StartConsuming s env = (s, .ok (), 0)) ∧
    (∀ (s : ConsumerState) (env1 env2 : StartEnv), s.isConsuming = false →
      env1.connAlive = true → env1.qosOk = true → env1.consumeOk = true →
      (StartConsuming s env1).2.2 = 1 ∧
      (StartConsuming s env1).1.isConsuming = true ∧
      StartConsuming (StartConsuming s env1).1 env2 =
        ((StartConsuming s env1).1, .ok (), 0)) := by
  constructor
  · intro s env h
    simp [StartConsuming, h]
  · intro s env1 env2 h h1 h2 h3
    simp [StartConsuming, h, h1, h2, h3]

/-- C8 witness: a fresh consumer started twice registers one loop; the
second call is a successful no-op. -/
theorem startConsuming_noop_when_consuming_witness :
    StartConsuming ⟨true, true⟩ ⟨true, true, true⟩ = (⟨true, true⟩, .ok (), 0) ∧
    (StartConsuming ⟨false, false⟩ ⟨true, true, true⟩).2.2 = 1 ∧
    StartConsuming (StartConsuming ⟨false, false⟩ ⟨true, true, true⟩).1 ⟨true, true, true⟩ =
      ((StartConsuming ⟨false, false⟩ ⟨true, true, true⟩).1, .ok (), 0) :=
  ⟨startConsuming_noop_when_consuming.1 ⟨true, true⟩ ⟨true, true, true⟩ rfl,
   (startConsuming_noop_when_consuming.2 ⟨false, false⟩ ⟨true, true, true⟩
      ⟨true, true, true⟩ rfl rfl rfl rfl).1,
   (startConsuming_noop_when_consuming.2 ⟨false, false⟩ ⟨true, true, true⟩
      ⟨true, true, true⟩ rfl rfl rfl rfl).2.2⟩

/-- Lifecycle state of the publisher owned by Close: whether the
stopReconnect channel has been closed and whether the channel and
connection handles are still open. -/
structure PublisherLifecycle where
  stopReconnectClosed : Bool
  channelOpen : Bool
  connOpen : Bool
deriving DecidableEq, Repr

/-- Lifecycle state of the consumer owned by Close. -/
structure ConsumerLifecycle where
  stopReconnectClosed : Bool
  isConsuming : Bool
  channelOpen : Bool
  connOpen : Bool
deriving DecidableEq, Repr

/-- Result of a Close call: normal completion, or a runtime panic. -/
inductive CloseOutcome where
  | ok
  | panicked
deriving DecidableEq, Repr

/-- Close from the RabbitMQ publisher.  Its first statement closes the
stopReconnect channel; in Go, closing an already closed channel panics, so
a second call panics before reaching the connection teardown. -/
def publisherClose (s : PublisherLifecycle) : PublisherLifecycle × CloseOutcome :=
  if s.stopReconnectClosed then (s, .panicked)
  else ({ stopReconnectClosed := true, channelOpen := false, connOpen := false }, .ok)

/-- Close from baby_consumer.go.  Its first statement closes the
stopReconnect channel, so a second call panics before resetting the
consuming flag or closing the connection. -/
def consumerClose (s : ConsumerLifecycle) : ConsumerLifecycle × CloseOutcome :=
  if s.stopReconnectClosed then (s, .panicked)
  else ({ stopReconnectClosed := true, isConsuming := false,
          channelOpen := false, connOpen := false }, .ok)

/-- C5 evaluation: the first Close completes normally on both components,
but a second Close after a completed first call panics on the double close
of the stopReconnect channel, for both the publisher and the consumer, so
Close is not idempotent. -/
theorem close_second_call_panics :
    (publisherClose ⟨false, true, true⟩).2 = .ok ∧
    (publisherClose (publisherClose ⟨false, true, true⟩).1).2 = .panicked ∧
    (consumerClose ⟨false, true, true, true⟩).2 = .ok ∧
    (consumerClose (consumerClose ⟨false, true, true, true⟩).1).2 = .panicked := by
  decide

/-- Send on the capacity-1 reconnect channel wrapped in a select with a
default branch, as both send sites of the publisher publishWithRetry do:
enqueue when there is room, fall through to default otherwise; the Bool
component records whether the caller blocked (never). -/
def selectDefaultSend (queued : Nat) : Nat × Bool :=
  if queued < 1 then (queued + 1, false) else (queued, false)

/-- Plain send on the capacity-1 reconnect channel, as the consumer does in
its consume loop when the delivery channel closes and in the
handleReconnection retry path: enqueue when there is room; none embeds the
caller blocking on a full buffer. -/
def bareSend (queued : Nat) : Option Nat :=
  if queued < 1 then some (queued + 1) else none

/-- C9 counterexample: the consumer issues its reconnect request with a
plain channel send, which blocks when one request is already pending,
contradicting the claim that requesting a reconnect never blocks the
requesting unit of work in both the publisher and the consumer. -/
theorem consumer_reconnect_send_blocks : bareSend 1 = none := by
  decide

/-- C9 amended: reconnect requests are coalesced to at most one pending in
both components (the channel has capacity 1); the publisher send sites
never block because they use a select with a default branch, while the
consumer send sites succeed only on an empty buffer and block while a
request is pending. -/
theorem reconnect_send_amended :
    (∀ q, q ≤ 1 → (selectDefaultSend q).2 = false ∧ (selectDefaultSend q).1 ≤ 1) ∧
    bareSend 0 = some 1 ∧
    (∀ q, 1 ≤ q → bareSend q = none) := by
  refine ⟨?_, rfl, ?_⟩
  · intro q hq
    have : q = 0 ∨ q = 1 := by omega
    rcases this with rfl | rfl <;> exact ⟨rfl, by decide⟩
  · intro q hq
    simp [bareSend, Nat.not_lt.mpr hq]

/-- C9 amended witness: publisher send with a pending request does not
block; consumer send with a pending request blocks. -/
theorem reconnect_send_amended_witness :
    (selectDefaultSend 1).2 = false ∧ bareSend 1 = none :=
  ⟨(reconnect_send_amended.1 1 (by decide)).1,
   reconnect_send_amended.2.2 1 (by decide)⟩

end Care
